import Mathlib

/-!
Shallow embedding of `src/main.rs` of the claude-usage-metrics job.

Conventions of the embedding:
* Rust `f64` values are modelled as `ℚ` (the claims are about which arithmetic
  is performed, not about IEEE rounding; every constant appearing in the code
  and in the spec's scenarios is a dyadic rational, where the operations are
  exact).
* Instants (`chrono::DateTime<Utc>`) are modelled as `ℤ`, a count of seconds
  since the epoch; `chrono::Duration::num_seconds` of a difference of two such
  instants is plain subtraction.
* `DateTime::parse_from_rfc3339(..).ok()` and
  `NaiveDate::parse_from_str(.., "%Y-%m-%d").ok()` are modelled as parameters
  `parse : String → Option ℤ` and `parseDate : String → Option NaiveDate`:
  the normalizers use the parser only through its `Option` result, so every
  statement is proved for an arbitrary parser and instantiated with a concrete
  one in the witnesses.
* `Utc::now()` is modelled as an explicit `now : ℤ` parameter.
* Recording a gauge sample (`gauge.record(value, attributes)`) is modelled as
  appending a `GaugeSample` to a list, in the order the code records them.
-/

namespace ClaudeUsage

/-- Rust struct `UsageInfo` (main.rs:17-21): one Claude quota bucket, with
optional utilization and optional RFC-3339 reset string. -/
structure UsageInfo where
  utilization : Option ℚ
  resets_at : Option String
  deriving DecidableEq

/-- Rust struct `UsageResponse` (main.rs:23-33): the Claude usage endpoint
body, eight optional buckets in declaration order. -/
structure UsageResponse where
  five_hour : Option UsageInfo
  seven_day : Option UsageInfo
  seven_day_oauth_apps : Option UsageInfo
  seven_day_opus : Option UsageInfo
  seven_day_sonnet : Option UsageInfo
  seven_day_cowork : Option UsageInfo
  iguana_necktie : Option UsageInfo
  extra_usage : Option UsageInfo
  deriving DecidableEq

/-- Rust struct `UsageMetric` (main.rs:35-40). -/
structure UsageMetric where
  name : String
  utilization : ℚ
  seconds_to_reset : Option ℤ
  deriving DecidableEq

/-- The closure of main.rs:61-68: `resets_at.and_then(|s| parse(s).ok().map(
|reset_time| (reset_time - now).num_seconds().max(0)))`. -/
def timeUntilReset (parse : String → Option ℤ) (now : ℤ)
    (resets_at : Option String) : Option ℤ :=
  resets_at.bind fun s => (parse s).map fun reset_time => max (reset_time - now) 0

/-- The `fields` array of main.rs:45-54: the eight buckets paired with their
declared names, in declaration order. -/
def claudeFields (r : UsageResponse) : List (String × Option UsageInfo) :=
  [("five_hour", r.five_hour),
   ("seven_day", r.seven_day),
   ("seven_day_oauth_apps", r.seven_day_oauth_apps),
   ("seven_day_opus", r.seven_day_opus),
   ("seven_day_sonnet", r.seven_day_sonnet),
   ("seven_day_cowork", r.seven_day_cowork),
   ("iguana_necktie", r.iguana_necktie),
   ("extra_usage", r.extra_usage)]

/-- The closure passed to `filter_map` at main.rs:58-76: `info.and_then(|i|
i.utilization.map(|utilization| UsageMetric { .. }))`. -/
def claudeEmit (parse : String → Option ℤ) (now : ℤ)
    (p : String × Option UsageInfo) : Option UsageMetric :=
  p.2.bind fun i => i.utilization.map fun utilization =>
    { name := p.1
      utilization := utilization
      seconds_to_reset := timeUntilReset parse now i.resets_at }

/-- Rust impl `From<UsageResponse> for Vec<UsageMetric>` (main.rs:42-79),
with the clock and the RFC-3339 parser passed explicitly. -/
def usageMetricsOf (parse : String → Option ℤ) (now : ℤ)
    (r : UsageResponse) : List UsageMetric :=
  (claudeFields r).filterMap (claudeEmit parse now)

/-- The declared bucket names in declaration order (first components of the
`fields` array of main.rs:45-54). -/
def claudeNames : List String :=
  ["five_hour", "seven_day", "seven_day_oauth_apps", "seven_day_opus",
   "seven_day_sonnet", "seven_day_cowork", "iguana_necktie", "extra_usage"]

/-- Rust struct `OpenRouterCreditsData` (main.rs:85-89). -/
structure OpenRouterCreditsData where
  total_credits : ℚ
  total_usage : ℚ
  deriving DecidableEq

/-- Rust struct `OpenRouterCreditsResponse` (main.rs:91-94). -/
structure OpenRouterCreditsResponse where
  data : OpenRouterCreditsData
  deriving DecidableEq

/-- Rust struct `OpenRouterMetrics` (main.rs:96-101). -/
structure OpenRouterMetrics where
  total_credits : ℚ
  total_usage : ℚ
  remaining : ℚ
  deriving DecidableEq

/-- Rust impl `From<OpenRouterCreditsResponse> for OpenRouterMetrics`
(main.rs:103-111). -/
def openRouterMetricsOf (r : OpenRouterCreditsResponse) : OpenRouterMetrics :=
  { total_credits := r.data.total_credits
    total_usage := r.data.total_usage
    remaining := r.data.total_credits - r.data.total_usage }

/-- Rust struct `GithubCopilotQuotaRemaining` (main.rs:117-123). -/
structure GithubCopilotQuotaRemaining where
  chat_percentage : ℚ
  premium_interactions_percentage : ℚ
  deriving DecidableEq

/-- Rust struct `GithubCopilotQuotas` (main.rs:125-130). -/
structure GithubCopilotQuotas where
  remaining : GithubCopilotQuotaRemaining
  reset_date : String
  deriving DecidableEq

/-- Abstraction of `chrono::NaiveDate`: the calendar date it denotes, as a
count of days since the epoch. -/
structure NaiveDate where
  days : ℤ
  deriving DecidableEq

/-- Model of `chrono::NaiveDate::and_hms_opt` composed with `and_utc`: the UTC
timestamp (in seconds) of the date at time h:m:s, `none` when the time of day
is out of range (the code calls it with 0,0,0, which always succeeds). -/
def and_hms_opt (d : NaiveDate) (h m s : ℕ) : Option ℤ :=
  if h < 24 ∧ m < 60 ∧ s < 60 then
    some (d.days * 86400 + (h : ℤ) * 3600 + (m : ℤ) * 60 + (s : ℤ))
  else none

/-- The `seconds_to_reset` computation of `run_github_copilot`
(main.rs:404-411): parse the reset date, combine it with midnight, take the
clamped difference from now. -/
def copilotSecondsToReset (parseDate : String → Option NaiveDate) (now : ℤ)
    (reset_date : String) : Option ℤ :=
  ((parseDate reset_date).bind fun d => and_hms_opt d 0 0 0).map
    fun reset_utc => max (reset_utc - now) 0

/-- One recorded gauge sample: the gauge's name, the recorded value, and the
attribute list passed to `record`. -/
structure GaugeSample where
  gauge : String
  value : ℚ
  labels : List (String × String)
  deriving DecidableEq

/-- The recording loop of `run_claude` (main.rs:268-285): for each metric a
utilization sample at `utilization / 100.0` tagged with the metric's name,
then, when present, a seconds-to-reset sample with the same tag. -/
def recordClaude (metrics : List UsageMetric) : List GaugeSample :=
  metrics.flatMap fun m =>
    { gauge := "claude.usage.utilization"
      value := m.utilization / 100
      labels := [("metric_name", m.name)] } ::
    (match m.seconds_to_reset with
     | some seconds =>
        [{ gauge := "claude.usage.seconds_to_reset"
           value := (seconds : ℚ)
           labels := [("metric_name", m.name)] }]
     | none => [])

/-- The recording portion of `run_github_copilot` (main.rs:404-435): the two
fixed utilization samples at `1 - remaining/100`, then, when the reset date
parsed, a seconds-to-reset sample recorded with an empty attribute list. -/
def recordCopilot (parseDate : String → Option NaiveDate) (now : ℤ)
    (q : GithubCopilotQuotas) : List GaugeSample :=
  let chat_utilization := 1 - q.remaining.chat_percentage / 100
  let premium_utilization := 1 - q.remaining.premium_interactions_percentage / 100
  let seconds_to_reset := copilotSecondsToReset parseDate now q.reset_date
  [{ gauge := "github_copilot.usage.utilization"
     value := chat_utilization
     labels := [("metric_name", "chat")] },
   { gauge := "github_copilot.usage.utilization"
     value := premium_utilization
     labels := [("metric_name", "premium_interactions")] }] ++
  (match seconds_to_reset with
   | some seconds =>
      [{ gauge := "github_copilot.usage.seconds_to_reset"
         value := (seconds : ℚ)
         labels := [] }]
   | none => [])

/-- Rust `Vec::join(sep)` on a vector of strings. -/
def joinSep (sep : String) : List String → String
  | [] => ""
  | [x] => x
  | x :: y :: xs => x ++ sep ++ joinSep sep (y :: xs)

/-- The aggregation of `run` (main.rs:452-478): the three collector outcomes
are all available (the code awaits all of them with `tokio::join!` before
looking at any); the failing ones are pushed, in the fixed provider order,
as label-prefixed messages, and the result is `ok` when none failed, else one
combined error joined by a fixed separator. -/
def runAggregate (claude openrouter github_copilot : Except String Unit) :
    Except String Unit :=
  let errors : List String :=
    (match claude with
     | .error e => ["Claude: " ++ e]
     | .ok _ => []) ++
    (match openrouter with
     | .error e => ["OpenRouter: " ++ e]
     | .ok _ => []) ++
    (match github_copilot with
     | .error e => ["GitHub Copilot: " ++ e]
     | .ok _ => [])
  if errors.isEmpty then Except.ok ()
  else Except.error ("Metrics collection failed: " ++ joinSep "; " errors)

/-- Concrete RFC-3339 parser used to instantiate witnesses: it recognises the
single string "past" as an instant 600 seconds before the epoch. -/
def sampleParse : String → Option ℤ :=
  fun s => if s = "past" then some (-600) else none

/-- Concrete date parser used to instantiate witnesses: it recognises the
single string "2026-01-01" as day 20454 since the epoch. -/
def sampleParseDate : String → Option NaiveDate :=
  fun s => if s = "2026-01-01" then some ⟨20454⟩ else none

/-- Concrete Claude response used by witnesses: a present five_hour bucket
with utilization 1 and a reset string no parser in scope recognises. -/
def responseUnparsable : UsageResponse :=
  ⟨some ⟨some 1, some "garbage"⟩, none, none, none, none, none, none, none⟩

/-- Concrete Claude response used by witnesses: a present five_hour bucket
with raw utilization 50 and no reset string. -/
def responseFifty : UsageResponse :=
  ⟨some ⟨some 50, none⟩, none, none, none, none, none, none, none⟩

/-- Concrete GitHub Copilot quota object used by witnesses: both remaining
percentages 50, reset date the string `sampleParseDate` recognises. -/
def copilotQ : GithubCopilotQuotas :=
  ⟨⟨50, 50⟩, "2026-01-01"⟩

theorem claudeEmit_eq_some {parse : String → Option ℤ} {now : ℤ}
    {p : String × Option UsageInfo} {m : UsageMetric}
    (h : claudeEmit parse now p = some m) :
    m.name = p.1 ∧ ∃ i, p.2 = some i ∧ i.utilization = some m.utilization ∧
      m.seconds_to_reset = timeUntilReset parse now i.resets_at := by
  obtain ⟨nm, info⟩ := p
  cases info with
  | none => simp [claudeEmit] at h
  | some i =>
    cases hu : i.utilization with
    | none => simp [claudeEmit, hu] at h
    | some u =>
      simp [claudeEmit, hu] at h
      subst h
      exact ⟨rfl, i, rfl, hu, rfl⟩

theorem claudeEmit_of_fields {parse : String → Option ℤ} {now : ℤ}
    {nm : String} {i : UsageInfo} {u : ℚ} (hu : i.utilization = some u) :
    claudeEmit parse now (nm, some i) =
      some ⟨nm, u, timeUntilReset parse now i.resets_at⟩ := by
  simp [claudeEmit, hu]

/-- C1: the Claude normalizer emits a metric for bucket `nm` iff the response
carries a present sub-object for `nm` with a present utilization; in
particular the all-absent response normalizes to the empty sequence. -/
theorem claude_emits_metric_iff (parse : String → Option ℤ) (now : ℤ)
    (r : UsageResponse) (nm : String) :
    ((∃ m ∈ usageMetricsOf parse now r, m.name = nm) ↔
      ∃ i, (nm, some i) ∈ claudeFields r ∧ i.utilization.isSome = true) ∧
    usageMetricsOf parse now ⟨none, none, none, none, none, none, none, none⟩
      = [] := by
  refine ⟨⟨?_, ?_⟩, rfl⟩
  · rintro ⟨m, hm, rfl⟩
    rw [usageMetricsOf, List.mem_filterMap] at hm
    obtain ⟨p, hp, he⟩ := hm
    obtain ⟨hname, i, hi, hu, -⟩ := claudeEmit_eq_some he
    refine ⟨i, ?_, by simp [hu]⟩
    have : p = (m.name, some i) := by
      obtain ⟨p1, p2⟩ := p
      simp only at hname hi
      rw [hname, hi]
    rwa [this] at hp
  · rintro ⟨i, hi, hu⟩
    obtain ⟨u, hu⟩ := Option.isSome_iff_exists.mp hu
    refine ⟨⟨nm, u, timeUntilReset parse now i.resets_at⟩, ?_, rfl⟩
    rw [usageMetricsOf, List.mem_filterMap]
    exact ⟨(nm, some i), hi, claudeEmit_of_fields hu⟩

theorem map_name_filterMap_sublist (parse : String → Option ℤ) (now : ℤ)
    (l : List (String × Option UsageInfo)) :
    List.Sublist ((l.filterMap (claudeEmit parse now)).map UsageMetric.name)
      (l.map Prod.fst) := by
  induction l with
  | nil => simp
  | cons p t ih =>
    rw [List.filterMap_cons, List.map_cons]
    cases he : claudeEmit parse now p with
    | none => exact ih.cons p.1
    | some m =>
      rw [List.map_cons, (claudeEmit_eq_some he).1]
      exact ih.cons₂ p.1

/-- C4: the Claude normalizer preserves the declared field order: the names of
the emitted metrics always form a sublist of the eight declared names in
declaration order, and a response with only seven_day and seven_day_opus
present (A absent, B present, C present) yields exactly those two, in that
order. -/
theorem claude_order_preserved (parse : String → Option ℤ) (now : ℤ)
    (uB uC : ℚ) :
    (∀ r, List.Sublist ((usageMetricsOf parse now r).map UsageMetric.name)
      claudeNames) ∧
    (usageMetricsOf parse now
      ⟨none, some ⟨some uB, none⟩, none, some ⟨some uC, none⟩,
       none, none, none, none⟩).map UsageMetric.name
      = ["seven_day", "seven_day_opus"] := by
  refine ⟨fun r => ?_, rfl⟩
  have h := map_name_filterMap_sublist parse now (claudeFields r)
  rwa [show (claudeFields r).map Prod.fst = claudeNames from rfl] at h

/-- C2: whenever the reset string parses, the computed time-to-reset is the
clamped difference, hence non-negative, and a reset instant strictly before
now yields exactly zero; this holds for the Claude RFC-3339 path and for the
GitHub Copilot date path alike. -/
theorem time_to_reset_nonneg (parse : String → Option ℤ)
    (parseDate : String → Option NaiveDate) (now reset_time : ℤ)
    (s ds : String) (d : NaiveDate)
    (hp : parse s = some reset_time) (hd : parseDate ds = some d) :
    (timeUntilReset parse now (some s) = some (max (reset_time - now) 0) ∧
      0 ≤ max (reset_time - now) 0 ∧
      (reset_time < now → timeUntilReset parse now (some s) = some 0)) ∧
    (copilotSecondsToReset parseDate now ds =
        some (max (d.days * 86400 - now) 0) ∧
      0 ≤ max (d.days * 86400 - now) 0 ∧
      (d.days * 86400 < now → copilotSecondsToReset parseDate now ds = some 0)) := by
  refine ⟨⟨?_, le_max_right _ _, fun hlt => ?_⟩,
          ⟨?_, le_max_right _ _, fun hlt => ?_⟩⟩
  · simp [timeUntilReset, hp]
  · simp [timeUntilReset, hp, max_eq_right (by omega : reset_time - now ≤ (0 : ℤ))]
  · simp [copilotSecondsToReset, hd, and_hms_opt]
  · simp [copilotSecondsToReset, hd, and_hms_opt,
      max_eq_right (by omega : d.days * 86400 - now ≤ (0 : ℤ))]

theorem time_to_reset_nonneg_witness :
    (sampleParse "past" = some (-600) ∧
      sampleParseDate "2026-01-01" = some ⟨20454⟩) ∧
    (timeUntilReset sampleParse 0 (some "past") = some (max (-600 - 0) 0) ∧
      0 ≤ max (-600 - 0 : ℤ) 0 ∧
      ((-600 : ℤ) < 0 → timeUntilReset sampleParse 0 (some "past") = some 0)) ∧
    (copilotSecondsToReset sampleParseDate 0 "2026-01-01" =
        some (max ((20454 : ℤ) * 86400 - 0) 0) ∧
      0 ≤ max ((20454 : ℤ) * 86400 - 0) 0 ∧
      ((20454 : ℤ) * 86400 < 0 →
        copilotSecondsToReset sampleParseDate 0 "2026-01-01" = some 0)) :=
  ⟨⟨rfl, rfl⟩,
    time_to_reset_nonneg sampleParse sampleParseDate 0 (-600) "past"
      "2026-01-01" ⟨20454⟩ rfl rfl⟩

/-- C3: a bucket whose utilization is present but whose reset string is absent
or rejected by the parser still yields a metric carrying that utilization,
with time-to-reset absent; the failure is swallowed. -/
theorem claude_parse_failure_swallowed (parse : String → Option ℤ) (now : ℤ)
    (r : UsageResponse) (nm : String) (i : UsageInfo) (u : ℚ)
    (hf : (nm, some i) ∈ claudeFields r) (hu : i.utilization = some u)
    (hr : i.resets_at = none ∨ ∃ s, i.resets_at = some s ∧ parse s = none) :
    ∃ m ∈ usageMetricsOf parse now r,
      m.name = nm ∧ m.utilization = u ∧ m.seconds_to_reset = none := by
  have ht : timeUntilReset parse now i.resets_at = none := by
    rcases hr with h | ⟨s, hs, hps⟩
    · simp [timeUntilReset, h]
    · simp [timeUntilReset, hs, hps]
  refine ⟨⟨nm, u, none⟩, ?_, rfl, rfl, rfl⟩
  rw [usageMetricsOf, List.mem_filterMap]
  refine ⟨(nm, some i), hf, ?_⟩
  rw [claudeEmit_of_fields hu, ht]

theorem claude_parse_failure_swallowed_witness :
    (("five_hour", some (⟨some 1, some "garbage"⟩ : UsageInfo)) ∈
        claudeFields responseUnparsable ∧
      sampleParse "garbage" = none) ∧
    ∃ m ∈ usageMetricsOf sampleParse 0 responseUnparsable,
      m.name = "five_hour" ∧ m.utilization = 1 ∧ m.seconds_to_reset = none :=
  ⟨⟨by simp [claudeFields, responseUnparsable], rfl⟩,
    claude_parse_failure_swallowed sampleParse 0 responseUnparsable "five_hour"
      ⟨some 1, some "garbage"⟩ 1
      (by simp [claudeFields, responseUnparsable]) rfl
      (Or.inr ⟨"garbage", rfl, rfl⟩)⟩

/-- C5: the credit-balance normalization passes total_credits and total_usage
through unchanged and computes remaining as their difference, with no reset
time in the produced record; in particular (100, 25.5) yields remaining
74.5. -/
theorem openrouter_normalization (r : OpenRouterCreditsResponse) :
    openRouterMetricsOf r =
      { total_credits := r.data.total_credits
        total_usage := r.data.total_usage
        remaining := r.data.total_credits - r.data.total_usage } ∧
    openRouterMetricsOf ⟨⟨100, 25.5⟩⟩ = ⟨100, 25.5, 74.5⟩ := by
  refine ⟨rfl, ?_⟩
  simp only [openRouterMetricsOf, OpenRouterMetrics.mk.injEq]
  norm_num

/-- C6: the GitHub Copilot collector records utilization for exactly its two
fixed sub-metrics, chat and premium_interactions, each valued
1 - remaining/100 of the corresponding remaining percentage. -/
theorem copilot_utilization_values (parseDate : String → Option NaiveDate)
    (now : ℤ) (q : GithubCopilotQuotas) :
    (recordCopilot parseDate now q).filter
        (fun s => s.gauge == "github_copilot.usage.utilization") =
      [{ gauge := "github_copilot.usage.utilization"
         value := 1 - q.remaining.chat_percentage / 100
         labels := [("metric_name", "chat")] },
       { gauge := "github_copilot.usage.utilization"
         value := 1 - q.remaining.premium_interactions_percentage / 100
         labels := [("metric_name", "premium_interactions")] }] := by
  cases h : copilotSecondsToReset parseDate now q.reset_date <;>
    simp only [recordCopilot, h] <;> rfl

/-- C7: with all three collector outcomes in hand, the aggregate is success
iff no provider failed; otherwise it is one error whose message lists exactly
the failing providers, each as its label plus its error, joined by the fixed
separator in the fixed order Claude, OpenRouter, GitHub Copilot. -/
theorem run_aggregation_spec (a b c : Except String Unit) :
    (runAggregate a b c = .ok () ↔
      a = .ok () ∧ b = .ok () ∧ c = .ok ()) ∧
    (∀ e1 e2 e3 : String,
      runAggregate (.error e1) (.ok ()) (.ok ()) =
        .error ("Metrics collection failed: " ++
          joinSep "; " ["Claude: " ++ e1]) ∧
      runAggregate (.ok ()) (.error e2) (.ok ()) =
        .error ("Metrics collection failed: " ++
          joinSep "; " ["OpenRouter: " ++ e2]) ∧
      runAggregate (.ok ()) (.ok ()) (.error e3) =
        .error ("Metrics collection failed: " ++
          joinSep "; " ["GitHub Copilot: " ++ e3]) ∧
      runAggregate (.error e1) (.ok ()) (.error e3) =
        .error ("Metrics collection failed: " ++
          joinSep "; " ["Claude: " ++ e1, "GitHub Copilot: " ++ e3]) ∧
      runAggregate (.error e1) (.error e2) (.error e3) =
        .error ("Metrics collection failed: " ++
          joinSep "; " ["Claude: " ++ e1, "OpenRouter: " ++ e2,
            "GitHub Copilot: " ++ e3])) := by
  constructor
  · rcases a with ea | ⟨⟩ <;> rcases b with eb | ⟨⟩ <;> rcases c with ec | ⟨⟩ <;>
      simp [runAggregate]
  · exact fun e1 e2 e3 => ⟨rfl, rfl, rfl, rfl, rfl⟩

/-- C8: the GitHub Copilot reset computation combines the parsed date with
midnight UTC and clamps the difference from now to non-negative; when the
date does not parse, the countdown is absent and the two utilization samples
are still the whole recording. -/
theorem copilot_reset_computation (parseDate : String → Option NaiveDate)
    (now : ℤ) (q : GithubCopilotQuotas) (d : NaiveDate)
    (h : parseDate q.reset_date = some d) :
    and_hms_opt d 0 0 0 = some (d.days * 86400) ∧
    copilotSecondsToReset parseDate now q.reset_date =
      some (max (d.days * 86400 - now) 0) ∧
    ∀ pd2 : String → Option NaiveDate, pd2 q.reset_date = none →
      copilotSecondsToReset pd2 now q.reset_date = none ∧
      recordCopilot pd2 now q =
        [{ gauge := "github_copilot.usage.utilization"
           value := 1 - q.remaining.chat_percentage / 100
           labels := [("metric_name", "chat")] },
         { gauge := "github_copilot.usage.utilization"
           value := 1 - q.remaining.premium_interactions_percentage / 100
           labels := [("metric_name", "premium_interactions")] }] := by
  have hmid : and_hms_opt d 0 0 0 = some (d.days * 86400) := by
    simp [and_hms_opt]
  refine ⟨hmid, ?_, fun pd2 h2 => ?_⟩
  · simp [copilotSecondsToReset, h, hmid]
  · have hn : copilotSecondsToReset pd2 now q.reset_date = none := by
      simp [copilotSecondsToReset, h2]
    exact ⟨hn, by simp [recordCopilot, hn]⟩

theorem copilot_reset_computation_witness :
    sampleParseDate copilotQ.reset_date = some ⟨20454⟩ ∧
    (and_hms_opt ⟨20454⟩ 0 0 0 = some ((20454 : ℤ) * 86400) ∧
     copilotSecondsToReset sampleParseDate 0 copilotQ.reset_date =
       some (max ((20454 : ℤ) * 86400 - 0) 0) ∧
     ∀ pd2 : String → Option NaiveDate, pd2 copilotQ.reset_date = none →
       copilotSecondsToReset pd2 0 copilotQ.reset_date = none ∧
       recordCopilot pd2 0 copilotQ =
         [{ gauge := "github_copilot.usage.utilization"
            value := 1 - copilotQ.remaining.chat_percentage / 100
            labels := [("metric_name", "chat")] },
          { gauge := "github_copilot.usage.utilization"
            value := 1 - copilotQ.remaining.premium_interactions_percentage / 100
            labels := [("metric_name", "premium_interactions")] }]) :=
  ⟨rfl, copilot_reset_computation sampleParseDate 0 copilotQ ⟨20454⟩ rfl⟩

/-- C9 as claimed is false: at this concrete input the GitHub Copilot
collector records a seconds-to-reset gauge sample whose attribute list is
empty, so it carries no metric_name label at all. -/
theorem copilot_reset_sample_unlabeled :
    ∃ s ∈ recordCopilot sampleParseDate 0 copilotQ,
      s.gauge = "github_copilot.usage.seconds_to_reset" ∧ s.labels = [] := by
  refine ⟨{ gauge := "github_copilot.usage.seconds_to_reset"
            value := ((max ((20454 : ℤ) * 86400 - 0) 0 : ℤ) : ℚ)
            labels := [] }, ?_, rfl, rfl⟩
  simp [recordCopilot, copilotSecondsToReset, sampleParseDate, copilotQ,
    and_hms_opt]

/-- C9 (amended): every utilization sample of the Claude and GitHub Copilot
collectors, and every Claude seconds-to-reset sample, carries a metric_name
label equal to the bucket it came from; the GitHub Copilot seconds-to-reset
sample, however, is recorded with an empty attribute list. -/
theorem metric_name_labels_amended (metrics : List UsageMetric)
    (parseDate : String → Option NaiveDate) (now : ℤ)
    (q : GithubCopilotQuotas) :
    (∀ s ∈ recordClaude metrics,
      ∃ m ∈ metrics, s.labels = [("metric_name", m.name)]) ∧
    (∀ s ∈ recordCopilot parseDate now q,
      s.gauge = "github_copilot.usage.utilization" →
        s.labels = [("metric_name", "chat")] ∨
        s.labels = [("metric_name", "premium_interactions")]) ∧
    (∀ s ∈ recordCopilot parseDate now q,
      s.gauge = "github_copilot.usage.seconds_to_reset" → s.labels = []) := by
  refine ⟨?_, ?_, ?_⟩
  · intro s hs
    rw [recordClaude, List.mem_flatMap] at hs
    obtain ⟨m, hm, hsm⟩ := hs
    refine ⟨m, hm, ?_⟩
    cases hr : m.seconds_to_reset with
    | none =>
      simp only [hr, List.mem_cons, List.not_mem_nil, or_false] at hsm
      rw [hsm]
    | some k =>
      simp only [hr, List.mem_cons, List.not_mem_nil, or_false] at hsm
      rcases hsm with h | h <;> rw [h]
  · intro s hs hg
    cases h : copilotSecondsToReset parseDate now q.reset_date <;>
      simp only [recordCopilot, h, List.cons_append, List.nil_append,
        List.mem_cons, List.not_mem_nil, or_false] at hs
    · rcases hs with h1 | h1 <;> rw [h1]
      · exact Or.inl rfl
      · exact Or.inr rfl
    · rcases hs with h1 | h1 | h1
      · rw [h1]; exact Or.inl rfl
      · rw [h1]; exact Or.inr rfl
      · rw [h1] at hg
        exact absurd (show ("github_copilot.usage.seconds_to_reset" : String) =
          "github_copilot.usage.utilization" from hg) (by decide)
  · intro s hs hg
    cases h : copilotSecondsToReset parseDate now q.reset_date <;>
      simp only [recordCopilot, h, List.cons_append, List.nil_append,
        List.mem_cons, List.not_mem_nil, or_false] at hs
    · rcases hs with h1 | h1 <;> rw [h1] at hg <;>
        exact absurd (show ("github_copilot.usage.utilization" : String) =
          "github_copilot.usage.seconds_to_reset" from hg) (by decide)
    · rcases hs with h1 | h1 | h1
      · rw [h1] at hg
        exact absurd (show ("github_copilot.usage.utilization" : String) =
          "github_copilot.usage.seconds_to_reset" from hg) (by decide)
      · rw [h1] at hg
        exact absurd (show ("github_copilot.usage.utilization" : String) =
          "github_copilot.usage.seconds_to_reset" from hg) (by decide)
      · rw [h1]

/-- C10: the Claude normalizer passes each present utilization through
unchanged into the metric, and the collector records the utilization gauge at
that raw value divided by 100, tagged with the bucket name. -/
theorem claude_gauge_divides_by_100 (parse : String → Option ℤ) (now : ℤ)
    (r : UsageResponse) (nm : String) (i : UsageInfo) (u : ℚ)
    (hf : (nm, some i) ∈ claudeFields r) (hu : i.utilization = some u) :
    (∃ m ∈ usageMetricsOf parse now r, m.name = nm ∧ m.utilization = u) ∧
    ∃ s ∈ recordClaude (usageMetricsOf parse now r),
      s.gauge = "claude.usage.utilization" ∧
      s.labels = [("metric_name", nm)] ∧ s.value = u / 100 := by
  have hm : (⟨nm, u, timeUntilReset parse now i.resets_at⟩ : UsageMetric) ∈
      usageMetricsOf parse now r := by
    rw [usageMetricsOf, List.mem_filterMap]
    exact ⟨(nm, some i), hf, claudeEmit_of_fields hu⟩
  refine ⟨⟨_, hm, rfl, rfl⟩, ?_⟩
  refine ⟨{ gauge := "claude.usage.utilization"
            value := u / 100
            labels := [("metric_name", nm)] }, ?_, rfl, rfl, rfl⟩
  rw [recordClaude, List.mem_flatMap]
  exact ⟨_, hm, List.mem_cons_self _ _⟩

theorem claude_gauge_divides_by_100_witness :
    (("five_hour", some (⟨some 50, none⟩ : UsageInfo)) ∈
        claudeFields responseFifty) ∧
    (∃ m ∈ usageMetricsOf sampleParse 0 responseFifty,
      m.name = "five_hour" ∧ m.utilization = 50) ∧
    ∃ s ∈ recordClaude (usageMetricsOf sampleParse 0 responseFifty),
      s.gauge = "claude.usage.utilization" ∧
      s.labels = [("metric_name", "five_hour")] ∧ s.value = 50 / 100 :=
  ⟨by simp [claudeFields, responseFifty],
    claude_gauge_divides_by_100 sampleParse 0 responseFifty "five_hour"
      ⟨some 50, none⟩ 50 (by simp [claudeFields, responseFifty]) rfl⟩

end ClaudeUsage
